import Mathlib

/-!
Shallow embedding of `src/yugha/autoscript.py` (the richest autoscript
variant, which the specification designates as the reference core), together
with theorems settling the frozen claims about it.

Conventions of the embedding:
* Python truthiness of strings is modelled by comparison with `""`
  (Python `None` and the empty string are merged into `""`, which is sound
  because the source only tests them with `if x:` / `if not x:`).
* Network and browser effects are modelled by explicit environment values
  (`FetchEnv`, `ClickOutcome`, `IterInput`, ...) describing what the outside
  world does; the functions below are the source's control flow over those
  inputs.
* JSON parsing by the `json` module is modelled as part of the input: a
  `response` carries the raw body text plus `Option (List Meeting)`, the
  `ref` list extracted when `response.json()` succeeds on a JSON object
  (`meetings_data.get("ref", [])` defaults to `[]`).  A body that parses to a
  non-object (so that `.get` raises `AttributeError`, caught by the generic
  `except Exception` handler) is represented by the `exnOther` environment.
-/

namespace Autoscript

/-! ## Data model -/

/-- A meeting object of the feed response's `ref` list
(`autoscript.py:406-418`).  Fields the source reads with `meeting.get`. -/
structure Meeting where
  _id : String
  title : String
  status : String
  instructor : Option String
  startTime : Option String
  endTime : Option String
deriving DecidableEq, Repr

/-- The `meeting_info` dict built at `autoscript.py:410-417`. -/
structure MeetingInfo where
  id : String
  title : String
  status : String
  instructor : String
  start_time : Option String
  end_time : Option String
deriving DecidableEq, Repr

/-- From `autoscript.py:410-417`: the descriptor built for a found meeting;
`meeting.get("instructor", "Unknown")` defaults a missing instructor. -/
def mkMeetingInfo (m : Meeting) : MeetingInfo :=
  { id := m._id
    title := m.title
    status := "found"
    instructor := m.instructor.getD "Unknown"
    start_time := m.startTime
    end_time := m.endTime }

/-- The possible returns of `fetch_meetings` (`autoscript.py:368-438`):
the sentinel 2-tuples `("TOKEN_EXPIRED", None)` and `("SSL_ERROR", None)`,
the found 3-tuple `(mid, title, meeting_info)`, and the fallthrough
`(None, None, None)`. -/
inductive FetchResult where
  | tokenExpired
  | sslError
  | found (mid : String) (title : String) (info : MeetingInfo)
  | nothing
deriving DecidableEq, Repr

/-! ## fetch_meetings -/

/-- From `autoscript.py:407-418`: the scan over `meetings_data.get("ref", [])`
returning on the first entry whose `status` equals `"started"`. -/
def scanMeetings : List Meeting → FetchResult
  | [] => .nothing
  | m :: rest =>
    if m.status = "started" then .found m._id m.title (mkMeetingInfo m)
    else scanMeetings rest

/-- Python `str.strip()` on the character list of a response body:
whitespace removed from both ends (`autoscript.py:394`).  The body is
modelled as `List Char` so that all string operations compute. -/
def strip (s : List Char) : List Char :=
  ((s.dropWhile Char.isWhitespace).reverse.dropWhile Char.isWhitespace).reverse

/-- From `autoscript.py:400`: the response body "looks like JSON" when the
stripped text starts with a brace or a bracket
(`startswith` with a one-character argument). -/
def json_looking (t : List Char) : Bool :=
  match t with
  | [] => false
  | c :: _ => c == '\x7b' || c == '['

/-- What the transport layer does during one `fetch_meetings` call:
a `requests.exceptions.SSLError` (`autoscript.py:429`), a generic
exception whose text mentions SSL/certificate (`autoscript.py:435`),
any other exception, or an HTTP response with a status code, a body and
the result of JSON-parsing the body (`none` when parsing raises
`json.JSONDecodeError`). -/
inductive FetchEnv where
  | sslExn
  | exnSSLString
  | exnOther
  | response (status : Nat) (body : List Char) (parsed : Option (List Meeting))
deriving Repr

/-- From `autoscript.py:368-438`: outcome classification of `fetch_meetings`. -/
def fetch_meetings : FetchEnv → FetchResult
  | .sslExn => .sslError
  | .exnSSLString => .sslError
  | .exnOther => .nothing
  | .response status body parsed =>
    if status = 200 then
      let response_text := strip body
      if response_text = [] then .tokenExpired
      else if !(json_looking response_text) then .tokenExpired
      else
        match parsed with
        | none => .tokenExpired
        | some meetings => scanMeetings meetings
    else if status = 401 ∨ status = 403 then .tokenExpired
    else .nothing

/-! ## safe_click_element and connect2class -/

/-- What the browser does for one `safe_click_element` call
(`autoscript.py:492-517`): the element becomes clickable and the direct
click works; the direct click raises `WebDriverException` and the
JavaScript fallback click works; both fail; or the 60s wait times out. -/
inductive ClickOutcome where
  | clicked
  | interceptedJsOk
  | interceptedJsFail
  | timedOut
deriving DecidableEq, Repr

/-- From `autoscript.py:492-517`: returns `True` on a successful (direct or
JavaScript fallback) click, `False` on `TimeoutException` or
`WebDriverException` — both are caught, nothing propagates. -/
def safe_click_element : ClickOutcome → Bool
  | .clicked => true
  | .interceptedJsOk => true
  | .interceptedJsFail => false
  | .timedOut => false

/-- The fixed click sequence of `connect2class` (`autoscript.py:534-539`). -/
def click_sequence : List (String × String) :=
  [("/html/body/div[2]/div/div/div[1]/div/div/span/button[1]", "permission dialog button 1"),
   ("/html/body/div[2]/div/div/div[1]/div/span/button[1]", "permission dialog button 2"),
   ("/html/body/div/main/section/div/header/div/div[1]/div[1]/button", "main interface button"),
   ("/html/body/div[1]/main/section/div[1]/div/div/div[2]/div[1]/div[2]/div/div/div/div/div/div[2]/span", "final connect button")]

/-- One attempted step of the join sequence: the locator and description
from `click_sequence`, the timeout passed to `safe_click_element`
(`autoscript.py:543` passes `timeout=60`), and the step's result. -/
structure StepAttempt where
  xpath : String
  description : String
  timeout : Nat
  clicked : Bool
deriving DecidableEq, Repr

/-- From `autoscript.py:519-560`: navigate to the session URL, then attempt every
step of `click_sequence` in order with a 60s timeout each; a step failure is
logged and the loop proceeds (`autoscript.py:541-548`); after the loop the
function returns `True` (`autoscript.py:550-553`).  `navOk = false` models an
exception escaping `driver.get`/page load, caught by the outer handler which
returns `False` before any step is attempted (`autoscript.py:555-560`). -/
def connect2class (navOk : Bool) (outcomes : Nat → ClickOutcome) :
    Bool × List StepAttempt :=
  if navOk then
    (true,
      click_sequence.enum.map fun p =>
        { xpath := p.2.1
          description := p.2.2
          timeout := 60
          clicked := safe_click_element (outcomes p.1) })
  else (false, [])

/-! ## take_screenshot -/

/-- The ordered directory preference list of `take_screenshot`
(`autoscript.py:594-600`). -/
def screenshot_dirs : List String :=
  ["/app/screenshots_yugha", "/app/logs_yugha/screenshots", "/app/logs_yugha",
   "/tmp/screenshots", "/tmp"]

/-- What the world does during one `take_screenshot` call: whether the
driver reference is non-`None`, whether reading `driver.current_url`
succeeds, which directories pass the write test, whether the PNG capture
and file write succeed, and the timestamp string. -/
structure ScreenshotEnv where
  driverPresent : Bool
  currentUrlOk : Bool
  dirWritable : String → Bool
  pngOk : Bool
  timestamp : String

/-- From `autoscript.py:579-633`: returns `None` when the driver is absent, when
the liveness read raises, when no directory is writable, or when the
capture/write raises (outer handler, `autoscript.py:631-633`); otherwise the
path of the written file.  Total: no failure propagates. -/
def take_screenshot (env : ScreenshotEnv) (description : String) :
    Option String :=
  if !env.driverPresent then none
  else if !env.currentUrlOk then none
  else
    match screenshot_dirs.find? env.dirWritable with
    | none => none
    | some dir =>
      if env.pngOk then
        some (dir ++ "/screenshot_" ++ description ++ "_" ++ env.timestamp ++ ".png")
      else none

/-! ## update_app_status -/

/-- A Python dict value for `meeting_info`, as an association list;
`[]` stands for the empty dict `\x7b\x7d`. -/
abbrev InfoDict := List (String × String)

/-- The module-level state that `update_app_status` touches. -/
structure AppState where
  app_status : String
  current_meeting_info : InfoDict
deriving DecidableEq, Repr

/-- The record written to `app_status.json` (`autoscript.py:71-75`). -/
structure StatusRecord where
  status : String
  timestamp : String
  meeting_info : InfoDict
deriving DecidableEq, Repr

/-- Python truthiness of the `meeting_info` argument: `None` and the
empty dict are falsy. -/
def truthyDict : Option InfoDict → Bool
  | none => false
  | some d => !d.isEmpty

/-- From `autoscript.py:62-79`: sets `app_status`, overwrites
`current_meeting_info` only when the argument is truthy
(`if meeting_info:` at line 66), and writes a record pairing the new
status and timestamp with the (possibly old) `current_meeting_info`. -/
def update_app_status (status : String) (meeting_info : Option InfoDict)
    (now : String) (st : AppState) : AppState × StatusRecord :=
  let cmi :=
    if truthyDict meeting_info then meeting_info.getD []
    else st.current_meeting_info
  ({ app_status := status, current_meeting_info := cmi },
   { status := status, timestamp := now, meeting_info := cmi })

/-! ## The two interruptible waits -/

/-- From `autoscript.py:686-690`: the meeting-screenshot wait,
`for i in range(900): if not running or not current_meeting_active: break;
time.sleep(1)`.  `run t` / `act t` give the value of the shared flags at
elapsed second `t`; the result is the elapsed time at which the wait ends.
`r` is the number of loop iterations remaining, `i` the elapsed seconds. -/
def screenshotWaitAux (run act : Nat → Bool) : Nat → Nat → Nat
  | 0, i => i
  | r + 1, i =>
    if !run i || !act i then i
    else screenshotWaitAux run act r (i + 1)

/-- The meeting-screenshot wait started at elapsed time 0. -/
def screenshotWait (run act : Nat → Bool) : Nat :=
  screenshotWaitAux run act 900 0

/-- From `autoscript.py:863-872`: the meeting-hold wait,
`while time.time() - start_time < 300 and running: time.sleep(30)`.
`run t` gives the `running` flag at elapsed second `t`; the result is the
elapsed time at which the loop exits. -/
def holdWait (run : Nat → Bool) (e : Nat) : Nat :=
  if h : e < 300 ∧ run e = true then holdWait run (e + 30) else e
termination_by 300 - e
decreasing_by omega

/-! ## The main loop -/

/-- From `autoscript.py:763`. -/
def max_consecutive_errors : Nat := 5

/-- From `autoscript.py:765`. -/
def max_ssl_errors : Nat := 3

/-- The module-level mutable state the main loop reads and writes
(restricted to the fields the claims concern). -/
structure LoopState where
  json_token : String
  active_sessions : List String
  consecutive_errors : Nat
  ssl_error_count : Nat
  driver : Bool
deriving DecidableEq, Repr

/-- Everything the environment decides during one iteration of the
`while running` loop (`autoscript.py:767-912`): whether a generic
exception reaches the `except Exception` handler, what `fetch_meetings`
returned, what `login` would return if called (`""` = failure), the
results of `fetch_meeting` / `get_session_url` / `get_session_token`
(`""` = falsy), the browser behaviour inside `connect2class`, whether a
driver relaunch would succeed, and the configured `refresh_time`. -/
structure IterInput where
  raise : Bool
  fetchResult : FetchResult
  loginToken : String
  meetingData : String
  sessUrl : String
  sessTokenUrl : String
  navOk : Bool
  clickEnv : Nat → ClickOutcome
  relaunchOk : Bool
  refresh_time : Nat

/-- Observable actions of one loop iteration, in program order. -/
inductive Action where
  | sleep (seconds : Nat)
  | loginCall
  | fetchMeetingCall (mid : String)
  | takeScreenshotCall (tag : String)
  | joinCall (mid : String)
  | holdConnection
  | teardownDriver
  | relaunchDriver
deriving DecidableEq, Repr

/-- Result of one loop iteration: the new state, the actions performed in
order, and whether the loop terminated (`break` on relaunch failure). -/
structure IterOutput where
  state : LoopState
  actions : List Action
  terminated : Bool

/-- One iteration of the main loop body (`autoscript.py:768-912`).
When `inp.raise` is true the iteration is one that ends in the
`except Exception` handler (`autoscript.py:893-912`); otherwise the
body runs to `continue` or to the `time.sleep(refresh_time)`. -/
def mainStep (st : LoopState) (inp : IterInput) : IterOutput :=
  if inp.raise then
    -- autoscript.py:893-912
    let ce := st.consecutive_errors + 1
    if ce ≥ max_consecutive_errors then
      if inp.relaunchOk then
        { state := { st with consecutive_errors := 0, driver := true }
          actions := [.teardownDriver, .sleep 30, .relaunchDriver]
          terminated := false }
      else
        { state := { st with consecutive_errors := ce, driver := false }
          actions := [.teardownDriver, .sleep 30, .relaunchDriver]
          terminated := true }
    else
      { state := { st with consecutive_errors := ce }
        actions := [.sleep (min (30 * ce) 300)]
        terminated := false }
  else
    match inp.fetchResult with
    | .tokenExpired =>
      -- autoscript.py:779-791
      if inp.loginToken = "" then
        { state := { st with json_token := "" }
          actions := [.loginCall, .sleep 60]
          terminated := false }
      else
        { state := { st with json_token := inp.loginToken,
                             consecutive_errors := 0, ssl_error_count := 0 }
          actions := [.loginCall]
          terminated := false }
    | .sslError =>
      -- autoscript.py:794-813
      let sc := st.ssl_error_count + 1
      let pre := if sc ≥ max_ssl_errors then [Action.sleep 30] else []
      if inp.loginToken = "" then
        { state := { st with ssl_error_count := sc, json_token := "" }
          actions := pre ++ [.loginCall, .sleep 60]
          terminated := false }
      else
        { state := { st with ssl_error_count := 0, consecutive_errors := 0,
                             json_token := inp.loginToken }
          actions := pre ++ [.loginCall]
          terminated := false }
    | .found mid title _info =>
      -- autoscript.py:815-888
      if mid ≠ "" ∧ title ≠ "" ∧ mid ∉ st.active_sessions then
        let st1 := { st with consecutive_errors := 0, ssl_error_count := 0 }
        if inp.meetingData = "" then
          { state := st1, actions := [.fetchMeetingCall mid, .sleep 30]
            terminated := false }
        else if inp.sessUrl = "" then
          { state := st1, actions := [.fetchMeetingCall mid, .sleep 30]
            terminated := false }
        else if inp.sessTokenUrl = "" then
          { state := st1, actions := [.fetchMeetingCall mid, .sleep 30]
            terminated := false }
        else if (connect2class inp.navOk inp.clickEnv).1 then
          { state := { st1 with active_sessions := st1.active_sessions ++ [mid] }
            actions := [.fetchMeetingCall mid,
                        .takeScreenshotCall "connecting_to_class",
                        .joinCall mid,
                        .takeScreenshotCall "connected_successfully",
                        .holdConnection,
                        .sleep inp.refresh_time]
            terminated := false }
        else
          { state := st1
            actions := [.fetchMeetingCall mid,
                        .takeScreenshotCall "connecting_to_class",
                        .joinCall mid,
                        .takeScreenshotCall "connection_failed",
                        .sleep inp.refresh_time]
            terminated := false }
      else
        { state := st, actions := [.sleep inp.refresh_time]
          terminated := false }
    | .nothing =>
      { state := st, actions := [.sleep inp.refresh_time]
        terminated := false }

/-- The actions of a run of the main loop over a list of per-iteration
environments, stopping when an iteration terminates the loop. -/
def runActions (st : LoopState) : List IterInput → List Action
  | [] => []
  | inp :: rest =>
    let out := mainStep st inp
    out.actions ++ (if out.terminated then [] else runActions out.state rest)

/-- All states reached during a run of the main loop (including the
initial and final ones). -/
def runStates (st : LoopState) : List IterInput → List LoopState
  | [] => [st]
  | inp :: rest =>
    let out := mainStep st inp
    st :: (if out.terminated then [out.state] else runStates out.state rest)

/-- Outcome of the startup prelude of `main` (`autoscript.py:732-760`). -/
inductive StartupResult where
  | exitNoDriver
  | exitLoginFailed
  | enterLoop (token : String)
deriving DecidableEq, Repr

/-- From `autoscript.py:732-760`: up to 3 driver launch attempts (`driverOk`
lists the attempts' results); no driver after 3 attempts is fatal; then the
initial login, whose failure (`""`) is fatal; otherwise the loop is entered
with the fresh token. -/
def mainStartup (driverOk : List Bool) (loginResult : String) : StartupResult :=
  if (driverOk.take 3).any (fun b => b) then
    if loginResult = "" then .exitLoginFailed else .enterLoop loginResult
  else .exitNoDriver

/-! ## Helper lemmas -/

/-- The feed scan agrees with `List.find?` on the started predicate. -/
theorem scanMeetings_eq_find (ms : List Meeting) :
    scanMeetings ms =
      match ms.find? (fun m => m.status == "started") with
      | some m => FetchResult.found m._id m.title (mkMeetingInfo m)
      | none => FetchResult.nothing := by
  induction ms with
  | nil => rfl
  | cons m rest ih =>
    by_cases h : m.status = "started"
    · simp [scanMeetings, List.find?_cons, h]
    · simp [scanMeetings, List.find?_cons, h, ih]

/-- The feed scan never produces the TOKEN_EXPIRED sentinel. -/
theorem scanMeetings_ne_tokenExpired (ms : List Meeting) :
    scanMeetings ms ≠ FetchResult.tokenExpired := by
  induction ms with
  | nil => simp [scanMeetings]
  | cons m rest ih =>
    by_cases h : m.status = "started" <;> simp [scanMeetings, h, ih]

/-- One step of the main loop neither joins a meeting whose id is already
in `active_sessions` nor removes any id from the set. -/
theorem mainStep_no_join_of_member (st : LoopState) (inp : IterInput)
    (mid : String) (h : mid ∈ st.active_sessions) :
    Action.joinCall mid ∉ (mainStep st inp).actions ∧
    mid ∈ (mainStep st inp).state.active_sessions := by
  unfold mainStep
  cases hr : inp.raise
  · cases hf : inp.fetchResult with
    | tokenExpired =>
      by_cases hl : inp.loginToken = "" <;> simp [hl, h]
    | sslError =>
      by_cases hl : inp.loginToken = "" <;>
        by_cases hge : st.ssl_error_count + 1 ≥ max_ssl_errors <;>
          simp [hl, hge, h]
    | found mid' title info =>
      by_cases hg : mid' ≠ "" ∧ title ≠ "" ∧ mid' ∉ st.active_sessions
      · have hne : mid ≠ mid' := fun he => hg.2.2 (he ▸ h)
        by_cases hmd : inp.meetingData = ""
        · simp [hg, hmd, h]
        · by_cases hsu : inp.sessUrl = ""
          · simp [hg, hmd, hsu, h]
          · by_cases hst : inp.sessTokenUrl = ""
            · simp [hg, hmd, hsu, hst, h]
            · by_cases hj : (connect2class inp.navOk inp.clickEnv).1 = true
              · simp [hg, hmd, hsu, hst, hj, h, hne]
              · simp [hg, hmd, hsu, hst, hj, h, hne]
      · simp [hg, h]
    | nothing => simp [h]
  · by_cases hge : st.consecutive_errors + 1 ≥ max_consecutive_errors
    · by_cases hro : inp.relaunchOk <;> simp [hge, hro, h]
    · simp [hge, h]

/-- Evaluation of the hold wait when the running flag goes false at
elapsed second 1: the loop still returns only at second 30. -/
theorem holdWait_shutdown_at_one :
    holdWait (fun s => decide (s < 1)) 0 = 30 := by
  have h1 : holdWait (fun s => decide (s < 1)) 0
      = holdWait (fun s => decide (s < 1)) 30 := by
    rw [holdWait.eq_def]
    simp
  have h2 : holdWait (fun s => decide (s < 1)) 30 = 30 := by
    rw [holdWait.eq_def]
    simp
  rw [h1, h2]

/-- The meeting-screenshot wait ends no later than the time from which the
running flag stays false: its check granularity is one second. -/
theorem screenshotWaitAux_le (run act : Nat → Bool) (t : Nat)
    (hf : ∀ s, t ≤ s → run s = false) :
    ∀ r i, screenshotWaitAux run act r i ≤ max i t := by
  intro r
  induction r with
  | zero =>
    intro i
    rw [screenshotWaitAux]
    exact le_max_left i t
  | succ r ih =>
    intro i
    by_cases hb : (!run i || !act i) = true
    · rw [screenshotWaitAux, if_pos hb]
      exact le_max_left i t
    · rw [screenshotWaitAux, if_neg hb]
      have hri : run i = true := by
        simp only [Bool.or_eq_true, Bool.not_eq_true'] at hb
        push_neg at hb
        cases h' : run i with
        | false => exact absurd h' hb.1
        | true => rfl
      have hit : i < t := by
        by_contra hge
        push_neg at hge
        rw [hf i hge] at hri
        exact Bool.noConfusion hri
      calc screenshotWaitAux run act r (i + 1) ≤ max (i + 1) t := ih (i + 1)
        _ = t := Nat.max_eq_right hit
        _ ≤ max i t := le_max_right i t

/-- The meeting-hold wait can overshoot the moment the running flag goes
false by up to 30 seconds (it only checks every 30 seconds). -/
theorem holdWait_le (run : Nat → Bool) (t : Nat)
    (hf : ∀ s, t ≤ s → run s = false) :
    ∀ e, holdWait run e ≤ max e (t + 30) := by
  have key : ∀ n e, 300 - e ≤ n → holdWait run e ≤ max e (t + 30) := by
    intro n
    induction n with
    | zero =>
      intro e he
      have hc : ¬(e < 300 ∧ run e = true) := by
        rintro ⟨h1, -⟩
        omega
      rw [holdWait.eq_def, dif_neg hc]
      exact le_max_left _ _
    | succ n ih =>
      intro e he
      by_cases hc : e < 300 ∧ run e = true
      · have het : e < t := by
          by_contra hge
          push_neg at hge
          have := hc.2
          rw [hf e hge] at this
          exact Bool.noConfusion this
        rw [holdWait.eq_def, dif_pos hc]
        calc holdWait run (e + 30) ≤ max (e + 30) (t + 30) :=
              ih (e + 30) (by omega)
          _ = t + 30 := Nat.max_eq_right (by omega)
          _ ≤ max e (t + 30) := le_max_right _ _
      · rw [holdWait.eq_def, dif_neg hc]
        exact le_max_left _ _
  exact fun e => key 300 e (by omega)

/-! ## Claim theorems -/

/-- C1: once a meeting id is in `active_sessions`, no later iteration of
the main loop ever passes it to `connect2class` again (even if
`fetch_meetings` keeps reporting it as started), and the id stays in the
set at every reached state: ids are never removed within a run. -/
theorem C1_no_rejoin (st : LoopState) (inps : List IterInput) (mid : String)
    (h : mid ∈ st.active_sessions) :
    Action.joinCall mid ∉ runActions st inps ∧
    ∀ s ∈ runStates st inps, mid ∈ s.active_sessions := by
  induction inps generalizing st with
  | nil =>
    refine ⟨by simp [runActions], ?_⟩
    intro s hs
    simp [runStates] at hs
    exact hs ▸ h
  | cons inp rest ih =>
    obtain ⟨hact, hmem⟩ := mainStep_no_join_of_member st inp mid h
    by_cases ht : (mainStep st inp).terminated
    · refine ⟨?_, ?_⟩
      · simp [runActions, ht]
        exact fun hc => hact hc
      · intro s hs
        simp [runStates, ht] at hs
        rcases hs with rfl | rfl
        · exact h
        · exact hmem
    · obtain ⟨ih1, ih2⟩ := ih (mainStep st inp).state hmem
      refine ⟨?_, ?_⟩
      · simp only [runActions]
        rw [if_neg ht]
        simp only [List.mem_append]
        rintro (hc | hc)
        · exact hact hc
        · exact ih1 hc
      · intro s hs
        simp only [runStates] at hs
        rw [if_neg ht] at hs
        simp only [List.mem_cons] at hs
        rcases hs with rfl | hs
        · exact h
        · exact ih2 s hs

/-- Witness for C1: with `"m1"` already in the set, a later poll reporting
`"m1"` as started does not produce a join call. -/
theorem C1_no_rejoin_witness :
    Action.joinCall "m1" ∉
      runActions ⟨"tok", ["m1"], 0, 0, true⟩
        [⟨false, .found "m1" "T" ⟨"m1", "T", "found", "Unknown", none, none⟩,
          "tok2", "data", "u", "v", true, fun _ => .clicked, true, 30⟩] :=
  (C1_no_rejoin _ _ _ (by decide)).1

/-- C3: in the main loop, a generic exception increments the
consecutive-error counter; below the threshold of 5 the loop sleeps
`min(30 * count, 300)` seconds and continues; at the threshold the driver
is torn down and relaunched exactly once and the counter resets to 0 after
a successful relaunch; a relaunch failure terminates the loop. -/
theorem C3_generic_error_policy (st : LoopState) (inp : IterInput)
    (h : inp.raise = true) :
    (st.consecutive_errors + 1 < max_consecutive_errors →
      (mainStep st inp).state.consecutive_errors = st.consecutive_errors + 1 ∧
      (mainStep st inp).actions
        = [Action.sleep (min (30 * (st.consecutive_errors + 1)) 300)] ∧
      (mainStep st inp).terminated = false ∧
      (mainStep st inp).actions.count Action.relaunchDriver = 0) ∧
    (max_consecutive_errors ≤ st.consecutive_errors + 1 → inp.relaunchOk = true →
      (mainStep st inp).actions
        = [Action.teardownDriver, Action.sleep 30, Action.relaunchDriver] ∧
      (mainStep st inp).actions.count Action.relaunchDriver = 1 ∧
      (mainStep st inp).state.consecutive_errors = 0 ∧
      (mainStep st inp).terminated = false) ∧
    (max_consecutive_errors ≤ st.consecutive_errors + 1 → inp.relaunchOk = false →
      (mainStep st inp).terminated = true) := by
  refine ⟨?_, ?_, ?_⟩
  · intro hlt
    have hn : ¬(st.consecutive_errors + 1 ≥ max_consecutive_errors) := by omega
    simp [mainStep, h, hn]
  · intro hge hro
    simp [mainStep, h, hge, hro]
  · intro hge hro
    simp [mainStep, h, hge, hro]

/-- Witness for C3: the fifth consecutive error with a successful relaunch
resets the counter and performs teardown, 30s pause, relaunch. -/
theorem C3_generic_error_policy_witness :
    (mainStep ⟨"t", [], 4, 0, true⟩
        ⟨true, .nothing, "", "", "", "", true, fun _ => .clicked, true, 30⟩).state.consecutive_errors
      = 0 ∧
    (mainStep ⟨"t", [], 4, 0, true⟩
        ⟨true, .nothing, "", "", "", "", true, fun _ => .clicked, true, 30⟩).actions
      = [Action.teardownDriver, Action.sleep 30, Action.relaunchDriver] := by
  have h := C3_generic_error_policy ⟨"t", [], 4, 0, true⟩
      ⟨true, .nothing, "", "", "", "", true, fun _ => .clicked, true, 30⟩ rfl
  exact ⟨(h.2.1 (by decide) rfl).2.2.1, (h.2.1 (by decide) rfl).1⟩

/-- C4: an SSL_ERROR outcome increments the dedicated SSL counter (the
generic consecutive-error counter is untouched by the increment); once the
SSL counter reaches 3 the loop sleeps 30 seconds before the re-login call;
a successful re-login resets both counters to 0. -/
theorem C4_ssl_error_policy (st : LoopState) (inp : IterInput)
    (h1 : inp.raise = false) (h2 : inp.fetchResult = .sslError) :
    (inp.loginToken = "" →
      (mainStep st inp).state.ssl_error_count = st.ssl_error_count + 1 ∧
      (mainStep st inp).state.consecutive_errors = st.consecutive_errors) ∧
    (max_ssl_errors ≤ st.ssl_error_count + 1 →
      ∃ rest, (mainStep st inp).actions
        = Action.sleep 30 :: Action.loginCall :: rest) ∧
    (st.ssl_error_count + 1 < max_ssl_errors →
      ∃ rest, (mainStep st inp).actions = Action.loginCall :: rest) ∧
    (inp.loginToken ≠ "" →
      (mainStep st inp).state.ssl_error_count = 0 ∧
      (mainStep st inp).state.consecutive_errors = 0) := by
  refine ⟨?_, ?_, ?_, ?_⟩
  · intro hl
    simp [mainStep, h1, h2, hl]
  · intro hge
    by_cases hl : inp.loginToken = ""
    · exact ⟨[Action.sleep 60], by simp [mainStep, h1, h2, hl, hge]⟩
    · exact ⟨[], by simp [mainStep, h1, h2, hl, hge]⟩
  · intro hlt
    have hn : ¬(st.ssl_error_count + 1 ≥ max_ssl_errors) := by omega
    by_cases hl : inp.loginToken = ""
    · exact ⟨[Action.sleep 60], by simp [mainStep, h1, h2, hl, hn]⟩
    · exact ⟨[], by simp [mainStep, h1, h2, hl, hn]⟩
  · intro hl
    simp [mainStep, h1, h2, hl]

/-- Witness for C4: the third SSL error pauses 30s before re-login, and
the successful re-login resets both counters. -/
theorem C4_ssl_error_policy_witness :
    (mainStep ⟨"t", [], 7, 2, true⟩
        ⟨false, .sslError, "newtok", "", "", "", true, fun _ => .clicked, true, 30⟩).state.ssl_error_count
      = 0 ∧
    (mainStep ⟨"t", [], 7, 2, true⟩
        ⟨false, .sslError, "newtok", "", "", "", true, fun _ => .clicked, true, 30⟩).state.consecutive_errors
      = 0 ∧
    ∃ rest,
      (mainStep ⟨"t", [], 7, 2, true⟩
          ⟨false, .sslError, "newtok", "", "", "", true, fun _ => .clicked, true, 30⟩).actions
        = Action.sleep 30 :: Action.loginCall :: rest := by
  have h := C4_ssl_error_policy ⟨"t", [], 7, 2, true⟩
      ⟨false, .sslError, "newtok", "", "", "", true, fun _ => .clicked, true, 30⟩ rfl rfl
  exact ⟨(h.2.2.2 (by decide)).1, (h.2.2.2 (by decide)).2, h.2.1 (by decide)⟩

/-- C9: a failed re-login after TOKEN_EXPIRED or SSL_ERROR makes the loop
sleep 60 seconds and continue; it never increments the generic
consecutive-error counter and never terminates the loop; only the initial
login failure during startup is fatal. -/
theorem C9_failed_relogin (st : LoopState) (inp : IterInput)
    (h1 : inp.raise = false) (hl : inp.loginToken = "") :
    (inp.fetchResult = .tokenExpired →
      (mainStep st inp).actions = [Action.loginCall, Action.sleep 60] ∧
      (mainStep st inp).terminated = false ∧
      (mainStep st inp).state.consecutive_errors = st.consecutive_errors) ∧
    (inp.fetchResult = .sslError →
      (mainStep st inp).actions.getLast? = some (Action.sleep 60) ∧
      (mainStep st inp).terminated = false ∧
      (mainStep st inp).state.consecutive_errors = st.consecutive_errors) ∧
    (∀ dOk tok, mainStartup dOk "" ≠ StartupResult.enterLoop tok) := by
  refine ⟨?_, ?_, ?_⟩
  · intro hf
    simp [mainStep, h1, hf, hl]
  · intro hf
    by_cases hge : st.ssl_error_count + 1 ≥ max_ssl_errors <;>
      simp [mainStep, h1, hf, hl, hge, List.getLast?]
  · intro dOk tok
    unfold mainStartup
    split
    · simp
    · simp

/-- Witness for C9: a failed re-login after a token expiry sleeps 60s,
leaves the error counter at 2 and does not terminate the loop. -/
theorem C9_failed_relogin_witness :
    (mainStep ⟨"t", [], 2, 0, true⟩
        ⟨false, .tokenExpired, "", "", "", "", true, fun _ => .clicked, true, 30⟩).actions
      = [Action.loginCall, Action.sleep 60] ∧
    (mainStep ⟨"t", [], 2, 0, true⟩
        ⟨false, .tokenExpired, "", "", "", "", true, fun _ => .clicked, true, 30⟩).terminated
      = false ∧
    (mainStep ⟨"t", [], 2, 0, true⟩
        ⟨false, .tokenExpired, "", "", "", "", true, fun _ => .clicked, true, 30⟩).state.consecutive_errors
      = 2 := by
  have h := C9_failed_relogin ⟨"t", [], 2, 0, true⟩
      ⟨false, .tokenExpired, "", "", "", "", true, fun _ => .clicked, true, 30⟩ rfl rfl
  exact ⟨(h.1 rfl).1, (h.1 rfl).2.1, (h.1 rfl).2.2⟩

/-- C7 counterexample: the claim says both waits check the keep-running
flag at about 1-second granularity.  With the flag false from elapsed
second 1 on, the meeting-screenshot wait indeed ends at second 1, but the
meeting-hold wait only ends at second 30 (its loop sleeps 30 seconds
between checks), which is not within about one second. -/
theorem C7_counterexample :
    holdWait (fun s => decide (s < 1)) 0 = 30 ∧
    screenshotWait (fun s => decide (s < 1)) (fun _ => true) = 1 ∧
    ¬(30 ≤ 1 + 1) :=
  ⟨holdWait_shutdown_at_one, rfl, by decide⟩

/-- C7 amended: the 900-second meeting-screenshot wait checks the shared
flags at 1-second granularity (it ends by the time the keep-running flag
has been false from), while the 300-second meeting-hold wait checks the
flag only every 30 seconds: it ends within 30 seconds of a shutdown
request, and can take the full 30 seconds. -/
theorem C7_wait_granularity_amended :
    (∀ (run act : Nat → Bool) (t : Nat),
        (∀ s, t ≤ s → run s = false) → screenshotWait run act ≤ t) ∧
    (∀ (run : Nat → Bool) (t : Nat),
        (∀ s, t ≤ s → run s = false) → holdWait run 0 ≤ t + 30) ∧
    holdWait (fun s => decide (s < 1)) 0 = 30 := by
  refine ⟨?_, ?_, holdWait_shutdown_at_one⟩
  · intro run act t hf
    have h := screenshotWaitAux_le run act t hf 900 0
    simpa [screenshotWait, Nat.max_eq_right (Nat.zero_le t)] using h
  · intro run t hf
    have h := holdWait_le run t hf 0
    simpa [Nat.max_eq_right (Nat.zero_le (t + 30))] using h

/-- Witness for the amended C7: with the flag false from the start, the
screenshot wait ends immediately and the hold wait ends within 30s. -/
theorem C7_wait_granularity_amended_witness :
    screenshotWait (fun _ => false) (fun _ => true) ≤ 0 ∧
    holdWait (fun _ => false) 0 ≤ 0 + 30 :=
  ⟨C7_wait_granularity_amended.1 _ _ 0 (fun _ _ => rfl),
   C7_wait_granularity_amended.2.1 _ 0 (fun _ _ => rfl)⟩

/-- C2: for every feed response whose `ref` list is scanned (HTTP 200,
JSON-looking body, successful parse), `fetch_meetings` returns exactly the
first entry in list order whose status equals `"started"` — its `_id`,
`title` and the built descriptor — skipping entries of every other status,
with no other ordering or tie-break (the result coincides with
`List.find?` on the started predicate). -/
theorem C2_fetch_first_started (body : List Char) (ms : List Meeting)
    (h : json_looking (strip body) = true) :
    fetch_meetings (.response 200 body (some ms)) =
      match ms.find? (fun m => m.status == "started") with
      | some m => FetchResult.found m._id m.title (mkMeetingInfo m)
      | none => FetchResult.nothing := by
  have hne : strip body ≠ [] := by
    intro he
    rw [he] at h
    exact absurd h (by decide)
  simp only [fetch_meetings, if_pos rfl, if_neg hne, h]
  simp [scanMeetings_eq_find]

/-- Witness for C2: a feed with a scheduled entry before two started
entries yields the first started entry. -/
theorem C2_fetch_first_started_witness :
    fetch_meetings (.response 200 " \x7b\"ref\": [..]\x7d".toList
        (some [⟨"a", "A", "scheduled", none, none, none⟩,
               ⟨"b", "B", "started", none, none, none⟩,
               ⟨"c", "C", "started", none, none, none⟩])) =
      FetchResult.found "b" "B"
        (mkMeetingInfo ⟨"b", "B", "started", none, none, none⟩) := by
  rw [C2_fetch_first_started _ _ (by decide)]
  decide

/-- C5: for every join attempt whose navigation succeeded, `connect2class`
attempts the fixed ordered sequence of four click steps, each with a
60-second timeout, for every possible combination of per-step outcomes
(including any step failing by timeout or click error: no failure aborts
the remaining steps), and declares overall success after the sequence
completes regardless of the individual step results. -/
theorem C5_join_sequence_best_effort (outcomes : Nat → ClickOutcome) :
    (connect2class true outcomes).1 = true ∧
    (connect2class true outcomes).2.length = 4 ∧
    (connect2class true outcomes).2.map (fun a => a.timeout) = [60, 60, 60, 60] ∧
    (connect2class true outcomes).2.map (fun a => (a.xpath, a.description)) =
      click_sequence :=
  ⟨rfl, rfl, rfl, rfl⟩

/-- The specification's wording of the TOKEN_EXPIRED condition, as a
predicate on the transport environment (for the C6 refinement). -/
def tokenExpiredCond : FetchEnv → Prop
  | .response status body parsed =>
    status = 401 ∨ status = 403 ∨
      (status = 200 ∧
        (strip body = [] ∨ json_looking (strip body) = false ∨ parsed = none))
  | _ => False

/-- C6: `fetch_meetings` returns TOKEN_EXPIRED if and only if the feed
response has status 401 or 403, or has status 200 with an empty body, a
body that does not look like JSON, or a body that fails JSON parsing;
and on a TOKEN_EXPIRED outcome the main loop calls `login` again. -/
theorem C6_token_expired_iff :
    (∀ env, fetch_meetings env = FetchResult.tokenExpired ↔ tokenExpiredCond env) ∧
    (∀ (st : LoopState) (lt md su stu : String) (nav : Bool)
        (ce : Nat → ClickOutcome) (ro : Bool) (rt : Nat),
      Action.loginCall ∈
        (mainStep st ⟨false, .tokenExpired, lt, md, su, stu, nav, ce, ro, rt⟩).actions) := by
  constructor
  · intro env
    cases env with
    | sslExn => simp [fetch_meetings, tokenExpiredCond]
    | exnSSLString => simp [fetch_meetings, tokenExpiredCond]
    | exnOther => simp [fetch_meetings, tokenExpiredCond]
    | response status body parsed =>
      by_cases h200 : status = 200
      · subst h200
        by_cases he : strip body = []
        · simp [fetch_meetings, tokenExpiredCond, he]
        · by_cases hj : json_looking (strip body) = true
          · cases parsed with
            | none => simp [fetch_meetings, tokenExpiredCond, he, hj]
            | some ms =>
              simp [fetch_meetings, tokenExpiredCond, he, hj,
                    scanMeetings_ne_tokenExpired ms]
          · simp [fetch_meetings, tokenExpiredCond, he, hj]
      · by_cases h4 : status = 401 ∨ status = 403 <;>
          simp [fetch_meetings, tokenExpiredCond, h200, h4]
  · intro st lt md su stu nav ce ro rt
    by_cases hl : lt = "" <;> simp [mainStep, hl]

/-- C8: for every call to `take_screenshot` where the driver handle is
absent or the liveness property read raises, the function returns `none`
(no screenshot produced); `take_screenshot` is a total function of its
environment, so no failure propagates. -/
theorem C8_screenshot_dead_driver (env : ScreenshotEnv) (d : String)
    (h : env.driverPresent = false ∨ env.currentUrlOk = false) :
    take_screenshot env d = none := by
  obtain ⟨dp, cu, dw, p, ts⟩ := env
  rcases h with h | h
  · simp only at h
    subst h
    rfl
  · simp only at h
    subst h
    cases dp <;> rfl

/-- Witness for C8: a torn-down driver handle yields no screenshot. -/
theorem C8_screenshot_dead_driver_witness :
    take_screenshot ⟨false, true, fun _ => true, true, "20260101_000000"⟩
      "status" = none :=
  C8_screenshot_dead_driver _ _ (Or.inl rfl)

/-- C10: a call to `update_app_status` without a `meeting_info` argument
leaves the stored `current_meeting_info` unchanged and writes a record
pairing the new status and fresh timestamp with the previously stored
meeting info; and no call whatsoever replaces the stored info except with
a truthy (non-empty) dict, so the info becomes empty only through an
explicit reset of the global elsewhere. -/
theorem C10_update_status_frame (status now : String) (st : AppState) :
    ((update_app_status status none now st).1.current_meeting_info
        = st.current_meeting_info) ∧
    ((update_app_status status none now st).2
        = ⟨status, now, st.current_meeting_info⟩) ∧
    (∀ mi, (update_app_status status mi now st).1.current_meeting_info
             = st.current_meeting_info ∨
           ∃ d, mi = some d ∧ truthyDict (some d) = true ∧
             (update_app_status status mi now st).1.current_meeting_info = d) := by
  refine ⟨rfl, rfl, fun mi => ?_⟩
  cases mi with
  | none => exact Or.inl rfl
  | some d =>
    cases d with
    | nil => exact Or.inl rfl
    | cons a l =>
      exact Or.inr ⟨a :: l, rfl, rfl, rfl⟩

end Autoscript
